import Mathlib

/-!
Shallow embedding of the rag-demo query pipeline:
`backend/app/utils/query_classifier.py` (QueryClassifier) and
`backend/app/services/query_service.py` (QueryService).

Python floats are modelled as exact rationals (ℚ); Python strings as
Lean `String` (or `List Char` for document content, where slicing
arithmetic matters); dictionaries as association lists with `lookup`;
exceptions as `Except String`.  External ML components (the spaCy
pipeline, the zero-shot classifier, the similarity search and the LLM)
are oracles: their outputs are universally quantified parameters.
-/

/-- `QueryType` enum from query_classifier.py. -/
inductive QueryType where
  | factual
  | analytical
  | compliance
  | procedural
  | temporal
deriving DecidableEq

/-- `.value` of the Python enum members. -/
def QueryType.val : QueryType → String
  | .factual => "factual"
  | .analytical => "analytical"
  | .compliance => "compliance"
  | .procedural => "procedural"
  | .temporal => "temporal"

/-- `QueryComplexity` enum from query_classifier.py. -/
inductive QueryComplexity where
  | simple
  | moderate
  | complex
  | expert
deriving DecidableEq

/-- `.value` of the Python enum members. -/
def QueryComplexity.val : QueryComplexity → String
  | .simple => "simple"
  | .moderate => "moderate"
  | .complex => "complex"
  | .expert => "expert"

/-- `self.patterns['compliance_keywords']`.  Every pattern in the source
is a regex-metacharacter-free literal, so `re.search(pattern, s)` is
substring containment. -/
def compliance_keywords : List String :=
  ["compliance", "regulation", "requirement", "audit",
   "control", "policy", "procedure", "sox", "sarbanes",
   "oxley", "internal control", "framework"]

/-- `self.patterns['temporal_indicators']`. -/
def temporal_indicators : List String :=
  ["when", "date", "period", "timeline", "history",
   "past", "future", "schedule", "deadline"]

/-- `self.patterns['complexity_indicators']['complex']`. -/
def complexity_indicators_complex : List String :=
  ["compare", "analyze", "evaluate", "assess",
   "implications", "impact", "relationship"]

/-- `self.patterns['complexity_indicators']['expert']`. -/
def complexity_indicators_expert : List String :=
  ["strategic", "optimization", "integration",
   "architecture", "framework", "methodology"]

/-- Substring containment on character lists (`pat` occurs
contiguously in the second list). -/
def containsSub (pat : List Char) : List Char → Bool
  | [] => pat.isEmpty
  | c :: rest => pat.isPrefixOf (c :: rest) || containsSub pat rest

/-- Python `s.lower()` on the ASCII strings involved: character-wise
lowercasing. -/
def lowerChars (s : String) : List Char :=
  s.toList.map Char.toLower

/-- `re.search(pattern, query.lower()) is not None` for the literal
patterns used by the classifier: substring test on the lowercased
query. -/
def patSearch (pattern : String) (query : String) : Bool :=
  containsSub pattern.toList (lowerChars query)

/-- `any(re.search(p, query.lower()) for p in pats)`. -/
def anyPattern (pats : List String) (query : String) : Bool :=
  pats.any (fun p => patSearch p query)

/-- `QueryClassifier._determine_query_type`.  The zero-shot
classifier's top-ranked label (`primary_type`) is an oracle
parameter; the compliance- and temporal-keyword overrides are applied
in source order. -/
def determine_query_type (primary_type : QueryType) (query : String) :
    QueryType :=
  if anyPattern compliance_keywords query then QueryType.compliance
  else if anyPattern temporal_indicators query then QueryType.temporal
  else primary_type

/-- `sum(1 for pattern in ...['complex'] if re.search(pattern, query.lower()))`. -/
def complex_indicators (query : String) : Nat :=
  complexity_indicators_complex.countP (fun p => patSearch p query)

/-- `sum(1 for pattern in ...['expert'] if re.search(pattern, query.lower()))`. -/
def expert_indicators (query : String) : Nat :=
  complexity_indicators_expert.countP (fun p => patSearch p query)

/-- `QueryClassifier._assess_complexity`.  The spaCy-derived counts
(`num_entities`: `len(doc.ents)`, `num_clauses`: tokens with
`dep_ == 'mark'`, `word_count`: non-punctuation tokens) are oracle
parameters; the indicator counts are computed from the query. -/
def assess_complexity (query : String)
    (num_entities num_clauses word_count : Nat) : QueryComplexity :=
  let ci := complex_indicators query
  let ei := expert_indicators query
  if ei > 0 ∨ (ci ≥ 2 ∧ num_clauses ≥ 3) then QueryComplexity.expert
  else if ci > 0 ∨ (num_entities ≥ 3 ∧ num_clauses ≥ 2) then
    QueryComplexity.complex
  else if num_entities ≥ 2 ∨ num_clauses ≥ 1 ∨ word_count > 15 then
    QueryComplexity.moderate
  else QueryComplexity.simple

/-- The complexity adjustment dictionary in
`QueryClassifier._calculate_confidence` (`0.1`, `0.05`, `-0.05`,
`-0.1` as exact rationals). -/
def complexity_factor : QueryComplexity → ℚ
  | .simple => 1/10
  | .moderate => 1/20
  | .complex => -(1/20)
  | .expert => -(1/10)

/-- `QueryClassifier._calculate_confidence`; `num_entities` stands for
`len(entities)`. -/
def calculate_confidence (complexity : QueryComplexity)
    (num_entities : Nat) : ℚ :=
  let base_confidence : ℚ := 7/10
  let entity_factor : ℚ := min ((num_entities : ℚ) * (1/10)) (2/10)
  let confidence := base_confidence + entity_factor +
    complexity_factor complexity
  max 0 (min 1 confidence)

/-!
### Temporal context (`QueryClassifier._identify_temporal_context`)
-/

/-- One entry of `temporal_context['temporal_references']`.  Entries
from the regex loop carry `rtype = none` (the Python dict has no
`'type'` key); entries from the spaCy entity loop carry
`rtype = some label`. -/
structure TemporalRef where
  text : String
  rtype : Option String
  start : Nat
  stop : Nat
deriving DecidableEq

/-- The `temporal_context` dictionary. -/
structure TemporalContext where
  has_temporal_aspect : Bool
  temporal_type : Option String
  temporal_references : List TemporalRef
deriving DecidableEq

/-- One iteration of either loop body in
`_identify_temporal_context`: set the flag and append the
reference. -/
def record_temporal (tc : TemporalContext) (r : TemporalRef) :
    TemporalContext :=
  { tc with
    has_temporal_aspect := true,
    temporal_references := tc.temporal_references ++ [r] }

/-- `QueryClassifier._identify_temporal_context`.  The regex matches
over the temporal-indicator patterns (`pattern_matches`, in iteration
order) and the spaCy DATE/TIME entities (`temporal_ents`) are oracle
parameters; the function folds the two source loops over the initial
dictionary `{False, None, []}`. -/
def identify_temporal_context
    (pattern_matches temporal_ents : List TemporalRef) : TemporalContext :=
  let tc0 : TemporalContext :=
    { has_temporal_aspect := false,
      temporal_type := none,
      temporal_references := [] }
  let tc1 := pattern_matches.foldl record_temporal tc0
  temporal_ents.foldl record_temporal tc1

/-!
### Query service data model (`query_service.py`)
-/

/-- A retrieved passage (one element of `relevant_docs`, a context
dict).  `content` is kept as a character list so Python slicing is
list `take`; `chunk_type = none` models a dict without the
`'chunk_type'` key, so `ctx.get('chunk_type', 'text')` is
`chunk_type.getD "text"`. -/
structure Passage where
  source : String
  page : Nat
  content : List Char
  chunk_type : Option String
deriving DecidableEq

/-- The dictionary returned by `QueryClassifier.classify_query`,
restricted to the fields `QueryService` reads (`query_type`,
`complexity`, `temporal_context`, `confidence_score`); the remaining
fields ride along unchanged and are irrelevant to every claim. -/
structure QueryAnalysis where
  query_type : String
  complexity : String
  temporal_context : TemporalContext
  confidence_score : ℚ
deriving DecidableEq

/-- One element of the `references` list built by
`QueryService._format_references`. -/
structure Reference where
  document : String
  page : Nat
  excerpt : List Char
  relevance_type : String
  confidence : ℚ
deriving DecidableEq

/-- The dictionary returned by `QueryService.process_query`. -/
structure QueryResponse where
  answer : String
  sources : List Reference
  confidence : ℚ
  query_analysis : QueryAnalysis
deriving DecidableEq

/-- `type_weights` in `_calculate_reference_confidence`. -/
def type_weights : List (String × ℚ) :=
  [("text", 1), ("table", 9/10), ("annotation", 8/10)]

/-- `complexity_weights` in `_calculate_reference_confidence`. -/
def complexity_weights : List (String × ℚ) :=
  [("simple", 1), ("moderate", 9/10), ("complex", 8/10), ("expert", 7/10)]

/-- `QueryService._calculate_reference_confidence`. -/
def calculate_reference_confidence (context : Passage)
    (query_analysis : QueryAnalysis) : ℚ :=
  let base_confidence : ℚ := 7/10
  let type_factor :=
    (type_weights.lookup (context.chunk_type.getD "text")).getD (7/10)
  let complexity_factor :=
    (complexity_weights.lookup query_analysis.complexity).getD (7/10)
  let confidence := base_confidence * type_factor * complexity_factor
  min 1 (max 0 confidence)

/-- The reference dict built for one context in
`QueryService._format_references`; the excerpt is
`ctx["content"][:200] + "..."`. -/
def format_reference (ctx : Passage) (query_analysis : QueryAnalysis) :
    Reference :=
  { document := ctx.source,
    page := ctx.page,
    excerpt := ctx.content.take 200 ++ ("...".toList),
    relevance_type := ctx.chunk_type.getD "text",
    confidence := calculate_reference_confidence ctx query_analysis }

/-- `QueryService._format_references`: the loop appends one reference
per context, in order. -/
def format_references (contexts : List Passage)
    (query_analysis : QueryAnalysis) : List Reference :=
  contexts.map (fun ctx => format_reference ctx query_analysis)

/-!
### Prompt formatting (`QueryService._format_prompt`)
-/

/-- The `SYSTEM_PROMPT` constant of query_service.py. -/
def SYSTEM_PROMPT : String :=
  "You are an AI assistant specialized in SOX (Sarbanes-Oxley Act) compliance.\nYour task is to provide accurate, clear, and concise answers to questions about SOX compliance documents.\nBase your answers strictly on the provided context. If you're unsure or the information isn't in the context, say so.\nAlways cite your sources using the provided document references.\n\nConsider the query type and complexity level provided, and adjust your response accordingly:\n- For simple queries: Provide direct, concise answers\n- For moderate queries: Include relevant context and basic explanations\n- For complex queries: Provide detailed analysis and multiple perspectives\n- For expert queries: Include comprehensive analysis, implications, and connections to broader compliance frameworks\n\nFormat your response in a clear, structured manner using markdown when appropriate."

/-- The keys of the `context_sections` dictionary in
`_format_prompt`. -/
def section_keys : List String :=
  ["text", "table", "annotation"]

/-- `f"Document: {ctx['source']}, Page: {ctx['page']}\n{ctx['content']}"`. -/
def contextEntry (ctx : Passage) : String :=
  "Document: " ++ ctx.source ++ ", Page: " ++ toString ctx.page ++
    "\n" ++ String.mk ctx.content

/-- `json.dumps` of a Bool. -/
def jsonBool : Bool → String
  | true => "true"
  | false => "false"

/-- `json.dumps` of a nullable string. -/
def jsonOptString : Option String → String
  | none => "null"
  | some s => "\"" ++ s ++ "\""

/-- `json.dumps` of one temporal-reference dict (key order follows
the Python insertion order; regex entries have no `type` key). -/
def jsonTemporalRef (r : TemporalRef) : String :=
  match r.rtype with
  | none =>
    "\x7b\"text\": \"" ++ r.text ++ "\", \"start\": " ++ toString r.start ++
      ", \"end\": " ++ toString r.stop ++ "\x7d"
  | some t =>
    "\x7b\"text\": \"" ++ r.text ++ "\", \"type\": \"" ++ t ++
      "\", \"start\": " ++ toString r.start ++ ", \"end\": " ++
      toString r.stop ++ "\x7d"

/-- `json.dumps(query_analysis['temporal_context'])`. -/
def jsonTemporalContext (tc : TemporalContext) : String :=
  "\x7b\"has_temporal_aspect\": " ++ jsonBool tc.has_temporal_aspect ++
    ", \"temporal_type\": " ++ jsonOptString tc.temporal_type ++
    ", \"temporal_references\": [" ++
    String.intercalate ", " (tc.temporal_references.map jsonTemporalRef) ++
    "]\x7d"

/-- The loop over `contexts` in `_format_prompt` that fills the
`context_sections` dictionary.  `context_sections[chunk_type]` on an
unknown chunk type raises `KeyError` (modelled as `Except.error`);
like the Python loop, the first offending context in iteration order
raises. -/
def collect_sections : List Passage →
    Except String (List String × List String × List String)
  | [] => Except.ok ([], [], [])
  | ctx :: rest =>
    let ct := ctx.chunk_type.getD "text"
    if ct = "text" then
      match collect_sections rest with
      | Except.error e => Except.error e
      | Except.ok (ts, tb, an) => Except.ok (contextEntry ctx :: ts, tb, an)
    else if ct = "table" then
      match collect_sections rest with
      | Except.error e => Except.error e
      | Except.ok (ts, tb, an) => Except.ok (ts, contextEntry ctx :: tb, an)
    else if ct = "annotation" then
      match collect_sections rest with
      | Except.error e => Except.error e
      | Except.ok (ts, tb, an) => Except.ok (ts, tb, contextEntry ctx :: an)
    else Except.error ("KeyError: " ++ ct)

/-- One `context_str` section: header plus `"\n\n".join(contents)`,
empty when the section is empty. -/
def sectionString (upperName : String) (contents : List String) : String :=
  if contents.isEmpty then ""
  else "\n" ++ upperName ++ " CONTENT:\n" ++ String.intercalate "\n\n" contents

/-- `QueryService._format_prompt`; fails with the `KeyError` of the
section dictionary when a context has an unknown chunk type. -/
def format_prompt (query : String) (contexts : List Passage)
    (query_analysis : QueryAnalysis) : Except String String :=
  match collect_sections contexts with
  | Except.error e => Except.error e
  | Except.ok (ts, tb, an) =>
    let context_str :=
      sectionString "TEXT" ts ++ sectionString "TABLE" tb ++
        sectionString "ANNOTATION" an
    let query_context :=
      "\nQuery Type: " ++ query_analysis.query_type ++
        "\nComplexity: " ++ query_analysis.complexity ++
        "\nTemporal Context: " ++
        jsonTemporalContext query_analysis.temporal_context ++ "\n"
    Except.ok (SYSTEM_PROMPT ++ "\n\nQUERY ANALYSIS:\n" ++ query_context ++
      "\n\nCONTEXT:\n" ++ context_str ++ "\n\nQuestion: " ++ query ++
      "\n\nAnswer: Let me help you with that based on the SOX compliance documents provided.")

/-!
### `QueryService.process_query`
-/

/-- The `num_contexts` dictionary literal in `process_query`. -/
def num_contexts_table : List (String × Nat) :=
  [("simple", 3), ("moderate", 5), ("complex", 7), ("expert", 10)]

/-- `{...}.get(query_analysis['complexity'], 5)`. -/
def num_contexts (complexity : String) : Nat :=
  (num_contexts_table.lookup complexity).getD 5

/-- The fixed answer returned when retrieval is empty. -/
def no_info_answer : String :=
  "I couldn't find any relevant information in the SOX compliance documents to answer your question."

/-- `QueryService.process_query`.  The classifier output
(`query_analysis`), the similarity search (`query_similar`, taking
the `limit` argument) and the LLM (`generate`) are oracle
parameters; a Python exception escaping the `try` block (re-raised
by the `except` handler) is `Except.error`. -/
def process_query (query_analysis : QueryAnalysis)
    (query_similar : Nat → List Passage) (generate : String → String)
    (query : String) : Except String QueryResponse :=
  let relevant_docs := query_similar (num_contexts query_analysis.complexity)
  if relevant_docs.isEmpty then
    Except.ok
      { answer := no_info_answer,
        sources := [],
        confidence := 0,
        query_analysis := query_analysis }
  else
    match format_prompt query relevant_docs query_analysis with
    | Except.error e => Except.error e
    | Except.ok prompt =>
      let response := generate prompt
      let sources := format_references relevant_docs query_analysis
      let confidence :=
        min query_analysis.confidence_score
          ((sources.map Reference.confidence).sum / (sources.length : ℚ))
      Except.ok
        { answer := response,
          sources := sources,
          confidence := confidence,
          query_analysis := query_analysis }

/-!
### Spec-side definitions (written from the specification's wording,
for comparison with the source embeddings above)
-/

/-- The query-type override cascade as the specification words it:
(a) any compliance keyword forces compliance; (b) else any temporal
indicator forces temporal; (c) else the zero-shot primary type. -/
def spec_query_type (primary : QueryType) (query : String) : QueryType :=
  if anyPattern compliance_keywords query then QueryType.compliance
  else if anyPattern temporal_indicators query then QueryType.temporal
  else primary

/-- The complexity tiers as the specification words them, taking all
five counts as given; first matching tier wins. -/
def spec_complexity (entities clause_markers word_count
    complex_ind expert_ind : Nat) : QueryComplexity :=
  if expert_ind > 0 ∨ (complex_ind ≥ 2 ∧ clause_markers ≥ 3) then
    QueryComplexity.expert
  else if complex_ind > 0 ∨ (entities ≥ 3 ∧ clause_markers ≥ 2) then
    QueryComplexity.complex
  else if entities ≥ 2 ∨ clause_markers ≥ 1 ∨ word_count > 15 then
    QueryComplexity.moderate
  else QueryComplexity.simple

/-- The classification-confidence formula as the specification words
it: base 0.7 plus `min(entity_count * 0.1, 0.2)` plus the complexity
adjustment, clamped to [0,1]. -/
def spec_confidence (complexity : QueryComplexity) (entity_count : Nat) : ℚ :=
  let adjustment : ℚ :=
    match complexity with
    | QueryComplexity.simple => 1/10
    | QueryComplexity.moderate => 1/20
    | QueryComplexity.complex => -(1/20)
    | QueryComplexity.expert => -(1/10)
  min 1 (max 0 (7/10 + min ((entity_count : ℚ) * (1/10)) (2/10) + adjustment))

/-- The reference-confidence formula as the specification words it,
as a function of the effective chunk type and the complexity
string. -/
def spec_reference_confidence (chunk_type complexity : String) : ℚ :=
  let type_weight : ℚ :=
    if chunk_type = "text" then 1
    else if chunk_type = "table" then 9/10
    else if chunk_type = "annotation" then 8/10
    else 7/10
  let complexity_weight : ℚ :=
    if complexity = "simple" then 1
    else if complexity = "moderate" then 9/10
    else if complexity = "complex" then 8/10
    else if complexity = "expert" then 7/10
    else 7/10
  min 1 (max 0 (7/10 * type_weight * complexity_weight))

/-!
### Sample inputs for concrete witnesses
-/

/-- A concrete classifier output used by witnesses. -/
def sample_analysis : QueryAnalysis :=
  { query_type := "factual",
    complexity := "simple",
    temporal_context :=
      { has_temporal_aspect := false, temporal_type := none,
        temporal_references := [] },
    confidence_score := 1 }

/-- A concrete retrieved passage with a defaulted chunk type. -/
def sample_passage : Passage :=
  { source := "doc.pdf", page := 1, content := "hello".toList,
    chunk_type := none }

/-- A concrete retrieved passage with an unknown chunk type. -/
def image_passage : Passage :=
  { source := "doc.pdf", page := 2, content := "img".toList,
    chunk_type := some "image" }

/-!
### Helper lemmas
-/

/-- A nonempty list is not `isEmpty`. -/
theorem isEmpty_false_of_ne_nil {α : Type} {l : List α} (h : l ≠ []) :
    l.isEmpty = false := by
  cases l with
  | nil => exact absurd rfl h
  | cons a t => rfl

/-- If every chunk type is a section key, the section-collection loop
succeeds. -/
theorem collect_sections_ok (ctxs : List Passage)
    (h : ∀ d ∈ ctxs, d.chunk_type.getD "text" ∈ section_keys) :
    ∃ r, collect_sections ctxs = Except.ok r := by
  induction ctxs with
  | nil => exact ⟨([], [], []), rfl⟩
  | cons c rest ih =>
    obtain ⟨⟨ts, tb, an⟩, hr⟩ := ih (fun d hd => h d (List.mem_cons_of_mem _ hd))
    have hc := h c (List.mem_cons_self _ _)
    simp only [section_keys, List.mem_cons, List.not_mem_nil, or_false] at hc
    rcases hc with h1 | h2 | h3
    · exact ⟨(contextEntry c :: ts, tb, an), by simp [collect_sections, h1, hr]⟩
    · exact ⟨(ts, contextEntry c :: tb, an), by simp [collect_sections, h2, hr]⟩
    · exact ⟨(ts, tb, contextEntry c :: an), by simp [collect_sections, h3, hr]⟩

/-- If some chunk type is not a section key, the section-collection
loop raises. -/
theorem collect_sections_error (ctxs : List Passage)
    (h : ∃ d ∈ ctxs, d.chunk_type.getD "text" ∉ section_keys) :
    ∃ e, collect_sections ctxs = Except.error e := by
  induction ctxs with
  | nil => simp at h
  | cons c rest ih =>
    by_cases hc : c.chunk_type.getD "text" ∈ section_keys
    · obtain ⟨d, hd, hbad⟩ := h
      rcases List.mem_cons.mp hd with rfl | hdrest
      · exact absurd hc hbad
      obtain ⟨e, he⟩ := ih ⟨d, hdrest, hbad⟩
      simp only [section_keys, List.mem_cons, List.not_mem_nil, or_false] at hc
      rcases hc with h1 | h2 | h3
      · exact ⟨e, by simp [collect_sections, h1, he]⟩
      · exact ⟨e, by simp [collect_sections, h2, he]⟩
      · exact ⟨e, by simp [collect_sections, h3, he]⟩
    · simp only [section_keys, List.mem_cons, List.not_mem_nil, or_false,
        not_or] at hc
      obtain ⟨h1, h2, h3⟩ := hc
      exact ⟨"KeyError: " ++ c.chunk_type.getD "text",
        by simp [collect_sections, h1, h2, h3]⟩

/-- `_format_prompt` succeeds when every chunk type is a section
key. -/
theorem format_prompt_ok (query : String) (ctxs : List Passage)
    (query_analysis : QueryAnalysis)
    (h : ∀ d ∈ ctxs, d.chunk_type.getD "text" ∈ section_keys) :
    ∃ p, format_prompt query ctxs query_analysis = Except.ok p := by
  obtain ⟨⟨ts, tb, an⟩, hr⟩ := collect_sections_ok ctxs h
  cases hfp : format_prompt query ctxs query_analysis with
  | ok p => exact ⟨p, rfl⟩
  | error e => exact absurd hfp (by simp only [format_prompt, hr]; simp)

/-- `_format_prompt` raises when some chunk type is unknown. -/
theorem format_prompt_error (query : String) (ctxs : List Passage)
    (query_analysis : QueryAnalysis)
    (h : ∃ d ∈ ctxs, d.chunk_type.getD "text" ∉ section_keys) :
    ∃ e, format_prompt query ctxs query_analysis = Except.error e := by
  obtain ⟨e, he⟩ := collect_sections_error ctxs h
  exact ⟨e, by simp only [format_prompt, he]⟩

/-- Every reference confidence lies in [0,1]. -/
theorem reference_confidence_mem_unit (ctx : Passage)
    (query_analysis : QueryAnalysis) :
    0 ≤ calculate_reference_confidence ctx query_analysis ∧
    calculate_reference_confidence ctx query_analysis ≤ 1 := by
  simp only [calculate_reference_confidence]
  exact ⟨le_min zero_le_one (le_max_left 0 _), min_le_left _ _⟩

/-- A list of rationals in [0,1] has a sum in [0, length]. -/
theorem sum_mem_unit_interval_scaled (l : List ℚ)
    (h : ∀ x ∈ l, 0 ≤ x ∧ x ≤ 1) :
    0 ≤ l.sum ∧ l.sum ≤ (l.length : ℚ) := by
  induction l with
  | nil => simp
  | cons a t ih =>
    obtain ⟨h0, h1⟩ := h a (List.mem_cons_self _ _)
    obtain ⟨t0, t1⟩ := ih (fun x hx => h x (List.mem_cons_of_mem _ hx))
    constructor <;> simp only [List.sum_cons, List.length_cons] <;>
      push_cast <;> linarith

/-- The two clamp orders agree. -/
theorem clamp_comm (x : ℚ) : max 0 (min 1 x) = min 1 (max 0 x) := by
  simp only [min_def, max_def]
  split_ifs <;> linarith

/-- `type_weights.get(k, 0.7)` as the if-chain the spec words. -/
theorem lookup_type_weights (k : String) :
    ((type_weights.lookup k).getD (7/10) : ℚ) =
      if k = "text" then 1 else if k = "table" then 9/10
      else if k = "annotation" then 8/10 else 7/10 := by
  by_cases h1 : k = "text"
  · subst h1; rfl
  by_cases h2 : k = "table"
  · subst h2; rfl
  by_cases h3 : k = "annotation"
  · subst h3; rfl
  · have e1 : (k == "text") = false := beq_eq_false_iff_ne.mpr h1
    have e2 : (k == "table") = false := beq_eq_false_iff_ne.mpr h2
    have e3 : (k == "annotation") = false := beq_eq_false_iff_ne.mpr h3
    simp [type_weights, List.lookup, e1, e2, e3, h1, h2, h3]

/-- `complexity_weights.get(k, 0.7)` as the if-chain the spec
words. -/
theorem lookup_complexity_weights (k : String) :
    ((complexity_weights.lookup k).getD (7/10) : ℚ) =
      if k = "simple" then 1 else if k = "moderate" then 9/10
      else if k = "complex" then 8/10 else if k = "expert" then 7/10
      else 7/10 := by
  by_cases h1 : k = "simple"
  · subst h1; rfl
  by_cases h2 : k = "moderate"
  · subst h2; rfl
  by_cases h3 : k = "complex"
  · subst h3; rfl
  by_cases h4 : k = "expert"
  · subst h4; rfl
  · have e1 : (k == "simple") = false := beq_eq_false_iff_ne.mpr h1
    have e2 : (k == "moderate") = false := beq_eq_false_iff_ne.mpr h2
    have e3 : (k == "complex") = false := beq_eq_false_iff_ne.mpr h3
    have e4 : (k == "expert") = false := beq_eq_false_iff_ne.mpr h4
    simp [complexity_weights, List.lookup, e1, e2, e3, e4, h1, h2, h3, h4]

/-- Folding the loop body of `_identify_temporal_context` sets the
flag when anything is recorded and appends the recorded references in
order. -/
theorem foldl_record_temporal (l : List TemporalRef) (tc : TemporalContext) :
    (l.foldl record_temporal tc).has_temporal_aspect =
      (tc.has_temporal_aspect || !l.isEmpty) ∧
    (l.foldl record_temporal tc).temporal_references =
      tc.temporal_references ++ l := by
  induction l generalizing tc with
  | nil => simp
  | cons r rest ih =>
    obtain ⟨ha, hr⟩ := ih (record_temporal tc r)
    simp only [List.foldl_cons]
    refine ⟨?_, ?_⟩
    · rw [ha]; simp [record_temporal]
    · rw [hr]; simp [record_temporal]

/-!
### Claim theorems
-/

/-- C1: the query type is decided by the fixed priority cascade
(compliance keywords, then temporal indicators, then the zero-shot
primary label); in particular any query matching a compliance keyword
is typed COMPLIANCE regardless of temporal indicators. -/
theorem query_type_priority_cascade (primary : QueryType) (query : String) :
    determine_query_type primary query = spec_query_type primary query ∧
    (anyPattern compliance_keywords query = true →
      determine_query_type primary query = QueryType.compliance) := by
  refine ⟨rfl, fun h => ?_⟩
  simp [determine_query_type, h]

/-- Witness for C1 on a query containing both the temporal keywords
"when"/"deadline" and the compliance keyword "audit". -/
theorem query_type_priority_cascade_witness :
    determine_query_type QueryType.factual
      "When is the next audit deadline" = QueryType.compliance :=
  (query_type_priority_cascade QueryType.factual
    "When is the next audit deadline").2 (by decide)

/-- C2: complexity is the strict priority cascade over the five
counts (entities, clause markers, word count, complex-indicator and
expert-indicator matches); first matching tier wins. -/
theorem complexity_priority_cascade (query : String)
    (num_entities num_clauses word_count : Nat) :
    assess_complexity query num_entities num_clauses word_count =
      spec_complexity num_entities num_clauses word_count
        (complex_indicators query) (expert_indicators query) := rfl

/-- C3: the retrieval depth is simple→3, moderate→5, complex→7,
expert→10, and 5 for any other complexity value. -/
theorem retrieval_depth_table :
    num_contexts "simple" = 3 ∧ num_contexts "moderate" = 5 ∧
    num_contexts "complex" = 7 ∧ num_contexts "expert" = 10 ∧
    ∀ s : String, s ∉ ["simple", "moderate", "complex", "expert"] →
      num_contexts s = 5 := by
  refine ⟨rfl, rfl, rfl, rfl, fun s hs => ?_⟩
  simp only [List.mem_cons, List.not_mem_nil, or_false, not_or] at hs
  obtain ⟨h1, h2, h3, h4⟩ := hs
  have e1 : (s == "simple") = false := beq_eq_false_iff_ne.mpr h1
  have e2 : (s == "moderate") = false := beq_eq_false_iff_ne.mpr h2
  have e3 : (s == "complex") = false := beq_eq_false_iff_ne.mpr h3
  have e4 : (s == "expert") = false := beq_eq_false_iff_ne.mpr h4
  simp [num_contexts, num_contexts_table, List.lookup, e1, e2, e3, e4]

/-- Witness for C3 at an unrecognized complexity value. -/
theorem retrieval_depth_table_witness : num_contexts "unrecognized" = 5 :=
  retrieval_depth_table.2.2.2.2 "unrecognized" (by decide)

/-- C4: the classification confidence is 0.7 plus
`min(entity_count * 0.1, 0.2)` plus the complexity adjustment,
clamped to [0,1]; an empty query (zero entities, zero counts,
complexity SIMPLE) scores exactly 0.8. -/
theorem classification_confidence_formula (complexity : QueryComplexity)
    (entity_count : Nat) :
    calculate_confidence complexity entity_count =
      spec_confidence complexity entity_count ∧
    assess_complexity "" 0 0 0 = QueryComplexity.simple ∧
    calculate_confidence QueryComplexity.simple 0 = 8/10 := by
  refine ⟨?_, by decide, by norm_num [calculate_confidence, complexity_factor]⟩
  cases complexity <;>
    exact clamp_comm _

/-- C5: the excerpt is always the first 200 characters of the
passage content followed by the three-character ellipsis marker, so
its length is `min(len(content), 200) + 3` and never exceeds 203. -/
theorem excerpt_always_appends_ellipsis (ctx : Passage)
    (query_analysis : QueryAnalysis) :
    (format_reference ctx query_analysis).excerpt =
      ctx.content.take 200 ++ ("...".toList) ∧
    (format_reference ctx query_analysis).excerpt.length =
      min ctx.content.length 200 + 3 ∧
    (format_reference ctx query_analysis).excerpt.length ≤ 203 := by
  have h3 : ("...".toList).length = 3 := rfl
  have hlen : (format_reference ctx query_analysis).excerpt.length =
      min 200 ctx.content.length + 3 := by
    simp only [format_reference, List.length_append, List.length_take, h3]
  refine ⟨rfl, ?_, ?_⟩ <;> rw [hlen] <;> omega

/-- C6: the reference confidence is `0.7 * type_weight *
complexity_weight` clamped to [0,1], with type weights text=1,
table=0.9, annotation=0.8, otherwise 0.7, and complexity weights
simple=1, moderate=0.9, complex=0.8, expert=0.7, otherwise 0.7; a
table passage under a simple query scores 0.63. -/
theorem reference_confidence_formula (ctx : Passage)
    (query_analysis : QueryAnalysis) :
    calculate_reference_confidence ctx query_analysis =
      spec_reference_confidence (ctx.chunk_type.getD "text")
        query_analysis.complexity ∧
    calculate_reference_confidence
      { source := "d", page := 1, content := [], chunk_type := some "table" }
      { query_type := "factual", complexity := "simple",
        temporal_context :=
          { has_temporal_aspect := false, temporal_type := none,
            temporal_references := [] },
        confidence_score := 1 } = 63/100 := by
  constructor
  · simp only [calculate_reference_confidence, spec_reference_confidence,
      lookup_type_weights, lookup_complexity_weights]
  · simp only [calculate_reference_confidence, lookup_type_weights,
      lookup_complexity_weights]
    norm_num [min_def, max_def]
    simp only [show (if ("table" : String) = "text" then (7:ℚ)/10 else 63/100) =
      63/100 from by rw [if_neg (by decide)]]
    norm_num

/-- C9: `_identify_temporal_context` keeps the invariant
`has_temporal_aspect == (len(temporal_references) > 0)`, and the
references recorded are exactly the pattern matches followed by the
DATE/TIME entities. -/
theorem temporal_aspect_iff_references
    (pattern_matches temporal_ents : List TemporalRef) :
    (identify_temporal_context pattern_matches temporal_ents).has_temporal_aspect =
      !(identify_temporal_context pattern_matches
          temporal_ents).temporal_references.isEmpty ∧
    (identify_temporal_context pattern_matches temporal_ents).temporal_references =
      pattern_matches ++ temporal_ents := by
  simp only [identify_temporal_context]
  obtain ⟨ha1, hr1⟩ := foldl_record_temporal pattern_matches
    { has_temporal_aspect := false, temporal_type := none,
      temporal_references := [] }
  obtain ⟨ha2, hr2⟩ := foldl_record_temporal temporal_ents
    (pattern_matches.foldl record_temporal
      { has_temporal_aspect := false, temporal_type := none,
        temporal_references := [] })
  rw [ha2, ha1, hr2, hr1]
  simp only [List.nil_append, Bool.false_or, true_and]
  cases pattern_matches <;> cases temporal_ents <;> simp

/-- C7: an empty retrieval short-circuits `process_query` to the
fixed no-information answer with no sources, confidence 0, and the
analysis unchanged; the result does not depend on the generator,
which is therefore never invoked. -/
theorem empty_retrieval_short_circuit (query_analysis : QueryAnalysis)
    (query_similar : Nat → List Passage) (generate : String → String)
    (query : String)
    (h : query_similar (num_contexts query_analysis.complexity) = []) :
    process_query query_analysis query_similar generate query =
      Except.ok
        { answer := no_info_answer, sources := [], confidence := 0,
          query_analysis := query_analysis } := by
  simp [process_query, h]

/-- Witness for C7 with a retrieval oracle that returns nothing. -/
theorem empty_retrieval_short_circuit_witness :
    process_query sample_analysis (fun _ => []) (fun s => s) "any question" =
      Except.ok
        { answer := no_info_answer, sources := [], confidence := 0,
          query_analysis := sample_analysis } :=
  empty_retrieval_short_circuit sample_analysis (fun _ => []) (fun s => s)
    "any question" rfl

/-- C8: with a nonempty retrieval (of recognized chunk types, so the
pipeline completes) the sources are the retrieved passages mapped
through the reference scorer in order, the overall confidence is the
minimum of the analysis confidence and the mean source confidence,
the mean is over a nonzero count, and the result lies in [0,1]
whenever the analysis confidence does. -/
theorem nonempty_retrieval_sources_and_confidence
    (query_analysis : QueryAnalysis) (query_similar : Nat → List Passage)
    (generate : String → String) (query : String)
    (hne : query_similar (num_contexts query_analysis.complexity) ≠ [])
    (hknown : ∀ d ∈ query_similar (num_contexts query_analysis.complexity),
      d.chunk_type.getD "text" ∈ section_keys)
    (hc0 : 0 ≤ query_analysis.confidence_score)
    (hc1 : query_analysis.confidence_score ≤ 1) :
    ∃ r : QueryResponse,
      process_query query_analysis query_similar generate query =
        Except.ok r ∧
      r.sources =
        format_references
          (query_similar (num_contexts query_analysis.complexity))
          query_analysis ∧
      r.confidence = min query_analysis.confidence_score
        ((r.sources.map Reference.confidence).sum / (r.sources.length : ℚ)) ∧
      r.query_analysis = query_analysis ∧
      r.sources.length ≠ 0 ∧
      0 ≤ r.confidence ∧ r.confidence ≤ 1 := by
  obtain ⟨p, hp⟩ := format_prompt_ok query
    (query_similar (num_contexts query_analysis.complexity)) query_analysis
    hknown
  have hie : (query_similar (num_contexts query_analysis.complexity)).isEmpty
      = false := isEmpty_false_of_ne_nil hne
  have hmem : ∀ x ∈ (format_references
      (query_similar (num_contexts query_analysis.complexity))
      query_analysis).map Reference.confidence, 0 ≤ x ∧ x ≤ 1 := by
    intro x hx
    simp only [format_references, List.map_map, List.mem_map,
      Function.comp] at hx
    obtain ⟨d, _, rfl⟩ := hx
    exact reference_confidence_mem_unit d query_analysis
  obtain ⟨hs0, _⟩ := sum_mem_unit_interval_scaled _ hmem
  refine ⟨{ answer := generate p,
            sources := format_references
              (query_similar (num_contexts query_analysis.complexity))
              query_analysis,
            confidence := min query_analysis.confidence_score
              (((format_references
                  (query_similar (num_contexts query_analysis.complexity))
                  query_analysis).map Reference.confidence).sum /
                ((format_references
                  (query_similar (num_contexts query_analysis.complexity))
                  query_analysis).length : ℚ)),
            query_analysis := query_analysis },
    ?_, rfl, rfl, rfl, ?_, ?_, ?_⟩
  · simp [process_query, hie, hp]
  · simp only [format_references, List.length_map, ne_eq,
      List.length_eq_zero]
    exact hne
  · exact le_min hc0 (div_nonneg hs0 (by positivity))
  · exact le_trans (min_le_left _ _) hc1

/-- Witness for C8 with a single retrieved text passage. -/
theorem nonempty_retrieval_sources_and_confidence_witness :
    ∃ r : QueryResponse,
      process_query sample_analysis (fun _ => [sample_passage])
        (fun _ => "generated answer") "q" = Except.ok r ∧
      r.sources = format_references [sample_passage] sample_analysis ∧
      r.confidence = min sample_analysis.confidence_score
        ((r.sources.map Reference.confidence).sum / (r.sources.length : ℚ)) ∧
      r.query_analysis = sample_analysis ∧
      r.sources.length ≠ 0 ∧
      0 ≤ r.confidence ∧ r.confidence ≤ 1 :=
  nonempty_retrieval_sources_and_confidence sample_analysis
    (fun _ => [sample_passage]) (fun _ => "generated answer") "q"
    (by simp) (by decide) zero_le_one (le_refl 1)

/-- C10: a nonempty retrieval containing a passage whose chunk type
is present but unknown makes `process_query` fail with the prompt
formatter's lookup error, so no reference is ever scored and the 0.7
type-weight default is unreachable through the full pipeline. -/
theorem unknown_chunk_type_fails_before_scoring
    (query_analysis : QueryAnalysis) (query_similar : Nat → List Passage)
    (generate : String → String) (query : String)
    (h : ∃ d ∈ query_similar (num_contexts query_analysis.complexity),
      d.chunk_type.getD "text" ∉ section_keys) :
    ∃ e, process_query query_analysis query_similar generate query =
      Except.error e := by
  obtain ⟨d, hd, hbad⟩ := h
  have hne : query_similar (num_contexts query_analysis.complexity) ≠ [] := by
    intro hnil
    rw [hnil] at hd
    exact List.not_mem_nil d hd
  obtain ⟨e, he⟩ := format_prompt_error query
    (query_similar (num_contexts query_analysis.complexity)) query_analysis
    ⟨d, hd, hbad⟩
  have hie : (query_similar (num_contexts query_analysis.complexity)).isEmpty
      = false := isEmpty_false_of_ne_nil hne
  exact ⟨e, by simp [process_query, hie, he]⟩

/-- Witness for C10 with a passage of chunk type "image". -/
theorem unknown_chunk_type_fails_before_scoring_witness :
    ∃ e, process_query sample_analysis (fun _ => [image_passage])
      (fun _ => "") "q" = Except.error e :=
  unknown_chunk_type_fails_before_scoring sample_analysis
    (fun _ => [image_passage]) (fun _ => "") "q"
    ⟨image_passage, by simp, by decide⟩
